import Mathlib

/-!
Shallow embedding of the BoatPiDashboard sensor monitoring core
(src/backend/core/sensor_monitor.py and src/backend/core/adc_handler.py).

Python floats are modelled as rationals, wall-clock readings are passed
explicitly as parameters, the mutable service object becomes an explicit
state record, and the background polling thread becomes a small-step
scheduler relation on that record.
-/

namespace BoatPi

/-- Embedding of the SensorReading dataclass: value, capture timestamp and
the stale flag (which defaults to false, as in the Python dataclass). -/
structure SensorReading where
  value : ℚ
  timestamp : ℚ
  stale : Bool := false
  deriving DecidableEq

/-- The hardware channels behind ADCHandler: a partial map from channel name
to the current raw voltage; none models read_raw returning None (the channel
name is absent from the channels dict / the source is unavailable). -/
abbrev Channels := String → Option ℚ

/-- ADCHandler.MAX_VOLTAGE_FUEL_LEVEL = 2.77. -/
def MAX_VOLTAGE_FUEL_LEVEL : ℚ := 277 / 100

/-- ADCHandler.FUEL_LEVEL_FACTOR = 100.0 / MAX_VOLTAGE_FUEL_LEVEL. -/
def FUEL_LEVEL_FACTOR : ℚ := 100 / MAX_VOLTAGE_FUEL_LEVEL

/-- ADCHandler.BATTERY_VOLTAGE_DIVIDER = 2.44275. -/
def BATTERY_VOLTAGE_DIVIDER : ℚ := 244275 / 100000

/-- ADCHandler.TEMPERATURE_FACTOR = 100.0. -/
def TEMPERATURE_FACTOR : ℚ := 100

/-- ADCHandler.RPM_FACTOR = 1000.0. -/
def RPM_FACTOR : ℚ := 1000

/-- ADCHandler.read_raw: returns the channel voltage, or None when the
channel name is not present. -/
def read_raw (channels : Channels) (channel_name : String) : Option ℚ :=
  channels channel_name

/-- ADCHandler.read_fuel_level: scales the raw voltage to a percentage and
clamps it into [0, 100]; returns 0.0 when the raw read yields None. -/
def read_fuel_level (c : Channels) : ℚ :=
  match read_raw c "fuel_level" with
  | none => 0
  | some raw => min (max (raw * FUEL_LEVEL_FACTOR) 0) 100

/-- ADCHandler.read_rpm: raw voltage times RPM_FACTOR, 0.0 when None. -/
def read_rpm (c : Channels) : ℚ :=
  match read_raw c "rpm" with
  | none => 0
  | some raw => raw * RPM_FACTOR

/-- ADCHandler.read_battery_voltage: raw voltage times the divider ratio,
0.0 when None. -/
def read_battery_voltage (c : Channels) : ℚ :=
  match read_raw c "battery" with
  | none => 0
  | some raw => raw * BATTERY_VOLTAGE_DIVIDER

/-- ADCHandler.read_temperature: raw voltage times TEMPERATURE_FACTOR,
0.0 when None. -/
def read_temperature (c : Channels) : ℚ :=
  match read_raw c "temperature" with
  | none => 0
  | some raw => raw * TEMPERATURE_FACTOR

/-- SensorMonitorService.REFRESH_RATES as a dict lookup: some interval for
the four registered sensors, none (KeyError) otherwise. -/
def REFRESH_RATES (sensor : String) : Option ℚ :=
  if sensor = "rpm" then some (1 / 10)
  else if sensor = "battery" then some 1
  else if sensor = "fuel_level" then some 2
  else if sensor = "temperature" then some 2
  else none

/-- SensorMonitorService.MAX_AGE as a dict lookup. -/
def MAX_AGE (sensor : String) : Option ℚ :=
  if sensor = "rpm" then some (1 / 2)
  else if sensor = "battery" then some 5
  else if sensor = "fuel_level" then some 10
  else if sensor = "temperature" then some 10
  else none

/-- The registered sensor identifiers, in the insertion order of the
REFRESH_RATES dict (this is the iteration order of get_all_readings). -/
def SENSORS : List String := ["rpm", "battery", "fuel_level", "temperature"]

/-- The _readings dict: a partial map from sensor name to its reading. -/
abbrev ReadingMap := String → Option SensorReading

/-- The last_read defaultdict(float): a total map defaulting to 0.0. -/
abbrev LastRead := String → ℚ

/-- Dict assignment readings[sensor] = r. -/
def setReading (m : ReadingMap) (sensor : String) (r : SensorReading) : ReadingMap :=
  fun x => if x = sensor then some r else m x

/-- Dict assignment last_read[sensor] = t. -/
def setLast (m : LastRead) (sensor : String) (t : ℚ) : LastRead :=
  fun x => if x = sensor then t else m x

/-- Abstract program counter of the background polling thread: exited (no
live thread), about to test the while condition, or inside the loop body. -/
inductive ThreadPC where
  | exited
  | atCheck
  | inBody
  deriving DecidableEq

/-- The mutable fields of a SensorMonitorService object, plus the program
counter of its polling thread. -/
structure MonState where
  readings : ReadingMap
  last_read : LastRead
  running : Bool
  pc : ThreadPC

/-- State produced by SensorMonitorService.__init__: empty readings dict,
last_read defaulting to 0.0, not running, no thread. -/
def initState : MonState :=
  { readings := fun _ => none, last_read := fun _ => 0,
    running := false, pc := ThreadPC.exited }

/-- SensorMonitorService._should_update: compares elapsed time since the
last attempt with the refresh rate and, when due, records the attempt time
at the decision point. none models the KeyError on an unregistered sensor. -/
def should_update (last : LastRead) (now : ℚ) (sensor : String) :
    Option (Bool × LastRead) :=
  match REFRESH_RATES sensor with
  | none => none
  | some rate =>
    if now - last sensor ≥ rate then some (true, setLast last sensor now)
    else some (false, last)

/-- One if-block of SensorMonitorService._polling_loop: when the sensor is
due, invoke the given ADC read and store a fresh SensorReading (stale
defaults to false) via _update_reading. -/
def pollSensor (read : Channels → ℚ) (sensor : String) (c : Channels) (now : ℚ)
    (s : MonState) : MonState :=
  match should_update s.last_read now sensor with
  | none => s
  | some (due, last') =>
    if due then
      { s with last_read := last',
               readings := setReading s.readings sensor
                 { value := read c, timestamp := now } }
    else { s with last_read := last' }

/-- One iteration of the body of SensorMonitorService._polling_loop: the
four if-blocks in source order (rpm, battery, fuel_level, temperature). -/
def pollTick (c : Channels) (now : ℚ) (s : MonState) : MonState :=
  pollSensor read_temperature "temperature" c now
    (pollSensor read_fuel_level "fuel_level" c now
      (pollSensor read_battery_voltage "battery" c now
        (pollSensor read_rpm "rpm" c now s)))

/-- The in-place assignment reading.stale = b on a stored reading object. -/
def setStale (r : SensorReading) (b : Bool) : SensorReading :=
  { r with stale := b }

/-- SensorMonitorService.get_reading: returns None when the sensor has no
stored reading, otherwise recomputes the stale flag from the current clock
and MAX_AGE (Except.error models the KeyError when MAX_AGE has no entry),
writes it back into the stored reading in place, and returns that reading.
The pair is (returned result, post-call service state). -/
def get_reading (s : MonState) (now : ℚ) (sensor : String) :
    Except String (Option SensorReading) × MonState :=
  match s.readings sensor with
  | none => (Except.ok none, s)
  | some r =>
    match MAX_AGE sensor with
    | none => (Except.error "KeyError", s)
    | some maxAge =>
      let r' : SensorReading := setStale r (decide (now - r.timestamp > maxAge))
      (Except.ok (some r'), { s with readings := setReading s.readings sensor r' })

/-- One iteration of the loop inside SensorMonitorService.get_all_readings:
sensors with no reading are skipped; present readings get their stale flag
recomputed in place and are appended to the result. -/
def gatherSensor (now : ℚ) (sensor : String) (out : List (String × SensorReading))
    (s : MonState) : Except String (List (String × SensorReading) × MonState) :=
  match s.readings sensor with
  | none => Except.ok (out, s)
  | some r =>
    match MAX_AGE sensor with
    | none => Except.error "KeyError"
    | some maxAge =>
      let r' : SensorReading := setStale r (decide (now - r.timestamp > maxAge))
      Except.ok (out ++ [(sensor, r')],
                 { s with readings := setReading s.readings sensor r' })

/-- SensorMonitorService.get_all_readings: iterates over the REFRESH_RATES
keys in insertion order with a single clock sample. -/
def get_all_readings (s : MonState) (now : ℚ) :
    Except String (List (String × SensorReading) × MonState) :=
  match gatherSensor now "rpm" [] s with
  | Except.error e => Except.error e
  | Except.ok (o₁, s₁) =>
    match gatherSensor now "battery" o₁ s₁ with
    | Except.error e => Except.error e
    | Except.ok (o₂, s₂) =>
      match gatherSensor now "fuel_level" o₂ s₂ with
      | Except.error e => Except.error e
      | Except.ok (o₃, s₃) => gatherSensor now "temperature" o₃ s₃

/-- SensorMonitorService.start: guarded by the running flag; when not
running, sets it and launches the polling thread (pc moves to atCheck). -/
def start (s : MonState) : MonState :=
  if s.running then s
  else { s with running := true, pc := ThreadPC.atCheck }

/-- Small-step semantics of the polling thread: test the while condition
(continuing into the body or exiting), or run one body iteration at some
clock instant against whatever the hardware currently reports, then sleep
and come back to the condition test. -/
inductive SchedStep : MonState → MonState → Prop where
  | checkContinue (s : MonState) : s.pc = ThreadPC.atCheck → s.running = true →
      SchedStep s { s with pc := ThreadPC.inBody }
  | checkExit (s : MonState) : s.pc = ThreadPC.atCheck → s.running = false →
      SchedStep s { s with pc := ThreadPC.exited }
  | tick (s : MonState) (c : Channels) (now : ℚ) : s.pc = ThreadPC.inBody →
      SchedStep s { pollTick c now s with pc := ThreadPC.atCheck }

/-- Zero or more scheduler steps. -/
def SchedSteps : MonState → MonState → Prop := Relation.ReflTransGen SchedStep

/-- SensorMonitorService.stop, relationally: it first clears the running
flag, then joins the polling thread, i.e. the call returns in exactly those
states reachable by scheduler steps in which the thread has fully exited. -/
def StopReturns (s t : MonState) : Prop :=
  SchedSteps { s with running := false } t ∧ t.pc = ThreadPC.exited

/-- States of the service reachable from construction through its public
API (scheduler activity, start, the flag-clearing phase of stop, and the
two query operations, which mutate the stored stale flags). -/
inductive Reachable : MonState → Prop where
  | boot : Reachable initState
  | sched (s t : MonState) : Reachable s → SchedStep s t → Reachable t
  | startCall (s : MonState) : Reachable s → Reachable (start s)
  | stopSignal (s : MonState) : Reachable s → Reachable { s with running := false }
  | queryOne (s : MonState) (now : ℚ) (sensor : String) :
      Reachable s → Reachable (get_reading s now sensor).2
  | queryAll (s t : MonState) (now : ℚ) (out : List (String × SensorReading)) :
      Reachable s → get_all_readings s now = Except.ok (out, t) → Reachable t

/-- A hardware snapshot where every channel reads 1.5 V. -/
def demoChannels : Channels := fun _ => some (3 / 2)

/-- A concrete reachable service state: started, then one loop iteration at
time 1/2 against demoChannels; only rpm is due at that instant, so the store
holds exactly one reading, rpm = 1500.0 captured at 1/2. -/
def demoState : MonState :=
  { pollTick demoChannels (1 / 2) { start initState with pc := ThreadPC.inBody } with
    pc := ThreadPC.atCheck }

/-- The literal form of demoState, used to evaluate queries against it. -/
def demoLit : MonState :=
  { readings := setReading (fun _ => none) "rpm" { value := 1500, timestamp := 1 / 2 },
    last_read := setLast (fun _ => 0) "rpm" (1 / 2),
    running := true, pc := ThreadPC.atCheck }

/-- A started service state with an empty store and no attempts recorded. -/
def plainState : MonState :=
  { readings := fun _ => none, last_read := fun _ => 0,
    running := true, pc := ThreadPC.inBody }

/-- The stored rpm reading of demoState after get_all_readings at time 2 has
recomputed its stale flag in place. -/
def demoPost : MonState :=
  { demoState with
    readings := setReading demoState.readings "rpm"
      { value := 1500, timestamp := 1 / 2, stale := true } }

/-- The list returned by get_all_readings demoState 2. -/
def demoOut : List (String × SensorReading) :=
  [("rpm", { value := 1500, timestamp := 1 / 2, stale := true })]

/-- Whether a query outcome is a raised error. -/
def isErr : Except String (Option SensorReading) → Bool
  | Except.error _ => true
  | Except.ok _ => false

/-- Readings-agreement up to the stale flag: every reading stored in t was
already stored in s with the same value and timestamp. -/
def PreservesVT (s t : MonState) : Prop :=
  ∀ y r', t.readings y = some r' →
    ∃ r₀, s.readings y = some r₀ ∧ r'.value = r₀.value ∧ r'.timestamp = r₀.timestamp

/-! ### Basic lemmas about the map operations and the policy tables -/

lemma setReading_self (m : ReadingMap) (k : String) (r : SensorReading) :
    setReading m k r k = some r := by
  simp [setReading]

lemma setReading_ne (m : ReadingMap) (k x : String) (r : SensorReading) (h : x ≠ k) :
    setReading m k r x = m x := by
  simp [setReading, h]

lemma setLast_self (m : LastRead) (k : String) (t : ℚ) : setLast m k t k = t := by
  simp [setLast]

lemma setLast_ne (m : LastRead) (k x : String) (t : ℚ) (h : x ≠ k) :
    setLast m k t x = m x := by
  simp [setLast, h]

lemma registered_iff (x : String) : (REFRESH_RATES x).isSome ↔ x ∈ SENSORS := by
  unfold REFRESH_RATES SENSORS
  split_ifs with h1 h2 h3 h4 <;> simp_all

lemma MAX_AGE_keys (x : String) : (MAX_AGE x).isSome = (REFRESH_RATES x).isSome := by
  unfold MAX_AGE REFRESH_RATES
  split_ifs <;> rfl

lemma REFRESH_RATES_of_not_sensor (x : String) (h : x ∉ SENSORS) :
    REFRESH_RATES x = none := by
  have := (registered_iff x).not.mpr h
  cases hx : REFRESH_RATES x with
  | none => rfl
  | some v => rw [hx] at this; simp at this

/-! ### Characterization of the scheduler primitives -/

lemma should_update_some (last : LastRead) (now rate : ℚ) (k : String)
    (hr : REFRESH_RATES k = some rate) :
    should_update last now k =
      (if now - last k ≥ rate then some (true, setLast last k now)
       else some (false, last)) := by
  unfold should_update
  rw [hr]

lemma pollSensor_due (read : Channels → ℚ) (k : String) (c : Channels) (now rate : ℚ)
    (s : MonState) (hr : REFRESH_RATES k = some rate)
    (h : now - s.last_read k ≥ rate) :
    pollSensor read k c now s =
      { s with last_read := setLast s.last_read k now,
               readings := setReading s.readings k { value := read c, timestamp := now } } := by
  unfold pollSensor
  rw [should_update_some _ _ _ _ hr, if_pos h]
  rfl

lemma pollSensor_skip (read : Channels → ℚ) (k : String) (c : Channels) (now rate : ℚ)
    (s : MonState) (hr : REFRESH_RATES k = some rate)
    (h : ¬ now - s.last_read k ≥ rate) :
    pollSensor read k c now s = s := by
  unfold pollSensor
  rw [should_update_some _ _ _ _ hr, if_neg h]
  rfl

lemma pollSensor_running (read : Channels → ℚ) (k : String) (c : Channels) (now : ℚ)
    (s : MonState) : (pollSensor read k c now s).running = s.running := by
  unfold pollSensor
  cases should_update s.last_read now k with
  | none => rfl
  | some p => cases p with | mk due last' => cases due <;> simp

lemma pollSensor_pc (read : Channels → ℚ) (k : String) (c : Channels) (now : ℚ)
    (s : MonState) : (pollSensor read k c now s).pc = s.pc := by
  unfold pollSensor
  cases should_update s.last_read now k with
  | none => rfl
  | some p => cases p with | mk due last' => cases due <;> simp

lemma pollSensor_readings_ne (read : Channels → ℚ) (k x : String) (c : Channels)
    (now : ℚ) (s : MonState) (h : x ≠ k) :
    (pollSensor read k c now s).readings x = s.readings x := by
  unfold pollSensor
  cases should_update s.last_read now k with
  | none => rfl
  | some p =>
    cases p with
    | mk due last' => cases due <;> simp [setReading_ne _ _ _ _ h]

lemma pollTick_running (c : Channels) (now : ℚ) (s : MonState) :
    (pollTick c now s).running = s.running := by
  unfold pollTick
  rw [pollSensor_running, pollSensor_running, pollSensor_running, pollSensor_running]

lemma pollTick_pc (c : Channels) (now : ℚ) (s : MonState) :
    (pollTick c now s).pc = s.pc := by
  unfold pollTick
  rw [pollSensor_pc, pollSensor_pc, pollSensor_pc, pollSensor_pc]

lemma pollTick_readings_not_sensor (c : Channels) (now : ℚ) (s : MonState)
    (x : String) (h : x ∉ SENSORS) :
    (pollTick c now s).readings x = s.readings x := by
  simp only [SENSORS, List.mem_cons, List.not_mem_nil, or_false, not_or] at h
  obtain ⟨h1, h2, h3, h4⟩ := h
  unfold pollTick
  rw [pollSensor_readings_ne _ _ _ _ _ _ h4, pollSensor_readings_ne _ _ _ _ _ _ h3,
    pollSensor_readings_ne _ _ _ _ _ _ h2, pollSensor_readings_ne _ _ _ _ _ _ h1]

lemma start_readings (s : MonState) : (start s).readings = s.readings := by
  unfold start
  split <;> rfl

lemma start_last (s : MonState) : (start s).last_read = s.last_read := by
  unfold start
  split <;> rfl

/-! ### Characterization of the query operations -/

lemma get_reading_absent (s : MonState) (now : ℚ) (x : String)
    (h : s.readings x = none) : get_reading s now x = (Except.ok none, s) := by
  unfold get_reading
  rw [h]

lemma get_reading_keyerror (s : MonState) (now : ℚ) (x : String) (r : SensorReading)
    (h : s.readings x = some r) (hm : MAX_AGE x = none) :
    get_reading s now x = (Except.error "KeyError", s) := by
  unfold get_reading
  rw [h, hm]

lemma get_reading_present (s : MonState) (now : ℚ) (x : String) (r : SensorReading)
    (m : ℚ) (h : s.readings x = some r) (hm : MAX_AGE x = some m) :
    get_reading s now x =
      (Except.ok (some (setStale r (decide (now - r.timestamp > m)))),
       { s with readings :=
           setReading s.readings x (setStale r (decide (now - r.timestamp > m))) }) := by
  unfold get_reading
  rw [h, hm]

lemma get_reading_snd_none (s : MonState) (now : ℚ) (x y : String) :
    (get_reading s now x).2.readings y = none ↔ s.readings y = none := by
  cases h : s.readings x with
  | none => rw [get_reading_absent s now x h]
  | some r =>
    cases hm : MAX_AGE x with
    | none => rw [get_reading_keyerror s now x r h hm]
    | some m =>
      rw [get_reading_present s now x r m h hm]
      by_cases hyx : y = x
      · subst hyx
        simp [setReading_self, h]
      · simp [setReading_ne _ _ _ _ hyx]

lemma get_reading_preservesVT (s : MonState) (now : ℚ) (x : String) :
    PreservesVT s (get_reading s now x).2 := by
  cases h : s.readings x with
  | none =>
    rw [get_reading_absent s now x h]
    exact fun y r' hy => ⟨r', hy, rfl, rfl⟩
  | some r =>
    cases hm : MAX_AGE x with
    | none =>
      rw [get_reading_keyerror s now x r h hm]
      exact fun y r' hy => ⟨r', hy, rfl, rfl⟩
    | some m =>
      rw [get_reading_present s now x r m h hm]
      intro y r' hy
      simp only at hy
      by_cases hyx : y = x
      · subst hyx
        rw [setReading_self] at hy
        cases hy
        exact ⟨r, h, rfl, rfl⟩
      · rw [setReading_ne _ _ _ _ hyx] at hy
        exact ⟨r', hy, rfl, rfl⟩

lemma gatherSensor_absent (now : ℚ) (k : String) (out : List (String × SensorReading))
    (s : MonState) (h : s.readings k = none) :
    gatherSensor now k out s = Except.ok (out, s) := by
  unfold gatherSensor
  rw [h]

lemma gatherSensor_keyerror (now : ℚ) (k : String) (out : List (String × SensorReading))
    (s : MonState) (r : SensorReading)
    (h : s.readings k = some r) (hm : MAX_AGE k = none) :
    gatherSensor now k out s = Except.error "KeyError" := by
  unfold gatherSensor
  rw [h, hm]

lemma gatherSensor_present (now : ℚ) (k : String) (out : List (String × SensorReading))
    (s : MonState) (r : SensorReading) (m : ℚ)
    (h : s.readings k = some r) (hm : MAX_AGE k = some m) :
    gatherSensor now k out s =
      Except.ok (out ++ [(k, setStale r (decide (now - r.timestamp > m)))],
        { s with readings :=
            setReading s.readings k (setStale r (decide (now - r.timestamp > m))) }) := by
  unfold gatherSensor
  rw [h, hm]

lemma gatherSensor_ok_inv (now : ℚ) (k : String) (out out' : List (String × SensorReading))
    (s t : MonState) (hg : gatherSensor now k out s = Except.ok (out', t)) :
    PreservesVT s t ∧
    (∀ y, s.readings y = none → t.readings y = none) ∧
    (∀ y, s.readings y = none → y ∉ out.map Prod.fst → y ∉ out'.map Prod.fst) := by
  cases h : s.readings k with
  | none =>
    rw [gatherSensor_absent now k out s h, Except.ok.injEq, Prod.mk.injEq] at hg
    obtain ⟨rfl, rfl⟩ := hg
    exact ⟨fun y r' hy => ⟨r', hy, rfl, rfl⟩, fun y hy => hy, fun y _ hy => hy⟩
  | some r =>
    cases hm : MAX_AGE k with
    | none =>
      rw [gatherSensor_keyerror now k out s r h hm] at hg
      exact Except.noConfusion hg
    | some m =>
      rw [gatherSensor_present now k out s r m h hm, Except.ok.injEq, Prod.mk.injEq] at hg
      obtain ⟨rfl, rfl⟩ := hg
      refine ⟨?_, ?_, ?_⟩
      · intro y r' hy
        simp only at hy
        by_cases hyx : y = k
        · subst hyx
          rw [setReading_self] at hy
          cases hy
          exact ⟨r, h, rfl, rfl⟩
        · rw [setReading_ne _ _ _ _ hyx] at hy
          exact ⟨r', hy, rfl, rfl⟩
      · intro y hy
        by_cases hyx : y = k
        · subst hyx
          rw [h] at hy
          cases hy
        · simp only
          rw [setReading_ne _ _ _ _ hyx]
          exact hy
      · intro y hy hout
        have hyx : y ≠ k := by
          intro he
          subst he
          rw [h] at hy
          cases hy
        simp only [List.map_append, List.map_cons, List.map_nil, List.mem_append,
          List.mem_cons, List.not_mem_nil, or_false, not_or]
        exact ⟨by simpa using hout, hyx⟩

lemma get_all_readings_ok_inv (s t : MonState) (now : ℚ)
    (out : List (String × SensorReading))
    (hall : get_all_readings s now = Except.ok (out, t)) :
    ∃ o₁ s₁ o₂ s₂ o₃ s₃,
      gatherSensor now "rpm" [] s = Except.ok (o₁, s₁) ∧
      gatherSensor now "battery" o₁ s₁ = Except.ok (o₂, s₂) ∧
      gatherSensor now "fuel_level" o₂ s₂ = Except.ok (o₃, s₃) ∧
      gatherSensor now "temperature" o₃ s₃ = Except.ok (out, t) := by
  unfold get_all_readings at hall
  split at hall
  · exact Except.noConfusion hall
  next o₁ s₁ h1 =>
    split at hall
    · exact Except.noConfusion hall
    next o₂ s₂ h2 =>
      split at hall
      · exact Except.noConfusion hall
      next o₃ s₃ h3 =>
        exact ⟨o₁, s₁, o₂, s₂, o₃, s₃, h1, h2, h3, hall⟩

/-! ### Evaluation of the demo states -/

lemma demoMid_eq :
    pollSensor read_rpm "rpm" demoChannels (1 / 2) plainState =
      { readings := setReading (fun _ => none) "rpm" { value := 1500, timestamp := 1 / 2 },
        last_read := setLast (fun _ => 0) "rpm" (1 / 2),
        running := true, pc := ThreadPC.inBody } := by
  have hrpm : read_rpm demoChannels = 1500 := by
    unfold read_rpm read_raw demoChannels RPM_FACTOR
    norm_num
  rw [pollSensor_due read_rpm "rpm" demoChannels (1 / 2) (1 / 10) plainState rfl
    (by norm_num [plainState])]
  simp [plainState, hrpm]

lemma demoState_eq : demoState = demoLit := by
  show { pollTick demoChannels (1 / 2) plainState with pc := ThreadPC.atCheck } = demoLit
  unfold pollTick
  rw [demoMid_eq]
  rw [pollSensor_skip read_battery_voltage "battery" demoChannels (1 / 2) 1 _ rfl
    (by simp +decide [setLast]; norm_num)]
  rw [pollSensor_skip read_fuel_level "fuel_level" demoChannels (1 / 2) 2 _ rfl
    (by simp +decide [setLast]; norm_num)]
  rw [pollSensor_skip read_temperature "temperature" demoChannels (1 / 2) 2 _ rfl
    (by simp +decide [setLast]; norm_num)]
  rfl

lemma demo_rpm : demoState.readings "rpm" = some { value := 1500, timestamp := 1 / 2 } := by
  rw [demoState_eq]
  simp [demoLit, setReading_self]

lemma demo_other (x : String) (h : x ≠ "rpm") : demoState.readings x = none := by
  rw [demoState_eq]
  show setReading (fun _ => none) "rpm" { value := 1500, timestamp := 1 / 2 } x = none
  rw [setReading_ne _ _ _ _ h]

lemma demoState_reachable : Reachable demoState := by
  have h0 : Reachable (start initState) := Reachable.startCall initState Reachable.boot
  have h1 : Reachable { start initState with pc := ThreadPC.inBody } :=
    Reachable.sched _ _ h0 (SchedStep.checkContinue (start initState) rfl rfl)
  exact Reachable.sched _ _ h1
    (SchedStep.tick { start initState with pc := ThreadPC.inBody } demoChannels (1 / 2) rfl)

lemma get_all_readings_preservesVT (s t : MonState) (now : ℚ)
    (out : List (String × SensorReading))
    (hall : get_all_readings s now = Except.ok (out, t)) :
    PreservesVT s t ∧ (∀ y, s.readings y = none → t.readings y = none) := by
  obtain ⟨o₁, s₁, o₂, s₂, o₃, s₃, h1, h2, h3, h4⟩ :=
    get_all_readings_ok_inv s t now out hall
  obtain ⟨p1, n1, -⟩ := gatherSensor_ok_inv _ _ _ _ _ _ h1
  obtain ⟨p2, n2, -⟩ := gatherSensor_ok_inv _ _ _ _ _ _ h2
  obtain ⟨p3, n3, -⟩ := gatherSensor_ok_inv _ _ _ _ _ _ h3
  obtain ⟨p4, n4, -⟩ := gatherSensor_ok_inv _ _ _ _ _ _ h4
  constructor
  · intro y r' hy
    obtain ⟨r₃, hy₃, v4, t4⟩ := p4 y r' hy
    obtain ⟨r₂, hy₂, v3, t3⟩ := p3 y r₃ hy₃
    obtain ⟨r₁, hy₁, v2, t2⟩ := p2 y r₂ hy₂
    obtain ⟨r₀, hy₀, v1, t1⟩ := p1 y r₁ hy₁
    exact ⟨r₀, hy₀, by rw [v4, v3, v2, v1], by rw [t4, t3, t2, t1]⟩
  · intro y hy
    exact n4 y (n3 y (n2 y (n1 y hy)))

/-! ### Scheduler-relation lemmas -/

lemma schedStep_running (s t : MonState) (h : SchedStep s t) : t.running = s.running := by
  cases h with
  | checkContinue hpc hrun => rfl
  | checkExit hpc hrun => rfl
  | tick c now hpc => exact pollTick_running c now s

lemma schedSteps_running (s t : MonState) (h : SchedSteps s t) : t.running = s.running := by
  induction h with
  | refl => rfl
  | tail hab hbc ih => rw [schedStep_running _ _ hbc, ih]

lemma schedStep_not_exited (s t : MonState) (h : SchedStep s t) :
    s.pc ≠ ThreadPC.exited := by
  cases h with
  | checkContinue hpc hrun => rw [hpc]; intro he; exact ThreadPC.noConfusion he
  | checkExit hpc hrun => rw [hpc]; intro he; exact ThreadPC.noConfusion he
  | tick c now hpc => rw [hpc]; intro he; exact ThreadPC.noConfusion he

lemma schedSteps_exited (s t : MonState) (h : SchedSteps s t)
    (hpc : s.pc = ThreadPC.exited) : t = s := by
  rcases Relation.ReflTransGen.cases_head h with heq | ⟨b, hb, hbt⟩
  · exact heq.symm
  · exact absurd hpc (schedStep_not_exited s b hb)

lemma running_false_update (s : MonState) (h : s.running = false) :
    { s with running := false } = s := by
  obtain ⟨a, b, c, d⟩ := s
  cases c
  · rfl
  · exact Bool.noConfusion h

/-! ### The key-set invariant of the readings store -/

lemma reachable_not_sensor_none (s : MonState) (h : Reachable s) :
    ∀ x, x ∉ SENSORS → s.readings x = none := by
  induction h with
  | boot => intro x _; rfl
  | sched s' t hs hstep ih =>
    intro x hx
    cases hstep with
    | checkContinue hpc hrun => exact ih x hx
    | checkExit hpc hrun => exact ih x hx
    | tick c now hpc =>
      show (pollTick c now s').readings x = none
      rw [pollTick_readings_not_sensor c now s' x hx]
      exact ih x hx
  | startCall s' hs ih =>
    intro x hx
    rw [start_readings]
    exact ih x hx
  | stopSignal s' hs ih => intro x hx; exact ih x hx
  | queryOne s' now sensor hs ih =>
    intro x hx
    rw [get_reading_snd_none]
    exact ih x hx
  | queryAll s' t now out hs hall ih =>
    intro x hx
    exact (get_all_readings_preservesVT s' t now out hall).2 x (ih x hx)

lemma reachable_registered (s : MonState) (h : Reachable s) (x : String)
    (r : SensorReading) (hx : s.readings x = some r) : x ∈ SENSORS := by
  by_contra hmem
  rw [reachable_not_sensor_none s h x hmem] at hx
  exact Option.noConfusion hx

lemma MAX_AGE_of_sensor (x : String) (hx : x ∈ SENSORS) : ∃ m, MAX_AGE x = some m := by
  have h1 : (REFRESH_RATES x).isSome := (registered_iff x).mpr hx
  have h2 : (MAX_AGE x).isSome := by rw [MAX_AGE_keys]; exact h1
  exact Option.isSome_iff_exists.mp h2

lemma pollSensor_last_ne (read : Channels → ℚ) (k x : String) (c : Channels)
    (now : ℚ) (s : MonState) (h : x ≠ k) :
    (pollSensor read k c now s).last_read x = s.last_read x := by
  cases hr : REFRESH_RATES k with
  | none =>
    have hsu : should_update s.last_read now k = none := by
      unfold should_update
      rw [hr]
    unfold pollSensor
    rw [hsu]
  | some rate =>
    by_cases hd : now - s.last_read k ≥ rate
    · rw [pollSensor_due read k c now rate s hr hd]
      show setLast s.last_read k now x = s.last_read x
      rw [setLast_ne _ _ _ _ h]
    · rw [pollSensor_skip read k c now rate s hr hd]

lemma pollSensor_writes (read : Channels → ℚ) (k : String) (c : Channels)
    (now rate : ℚ) (s : MonState) (hr : REFRESH_RATES k = some rate)
    (h : now - s.last_read k ≥ rate) :
    (pollSensor read k c now s).readings k =
      some { value := read c, timestamp := now } := by
  rw [pollSensor_due read k c now rate s hr h]
  exact setReading_self _ _ _

lemma demoPost_readings_rpm :
    demoPost.readings "rpm" = some { value := 1500, timestamp := 1 / 2, stale := true } := by
  show setReading demoState.readings "rpm"
    { value := 1500, timestamp := 1 / 2, stale := true } "rpm" = _
  rw [setReading_self]

lemma demoPost_readings_other (x : String) (h : x ≠ "rpm") :
    demoPost.readings x = none := by
  show setReading demoState.readings "rpm"
    { value := 1500, timestamp := 1 / 2, stale := true } x = none
  rw [setReading_ne _ _ _ _ h]
  exact demo_other x h

lemma demo_all : get_all_readings demoState 2 = Except.ok (demoOut, demoPost) := by
  have g1 : gatherSensor 2 "rpm" [] demoState = Except.ok (demoOut, demoPost) := by
    rw [gatherSensor_present 2 "rpm" [] demoState
      { value := 1500, timestamp := 1 / 2 } (1 / 2) demo_rpm rfl]
    norm_num [setStale, demoOut, demoPost]
  have g2 : gatherSensor 2 "battery" demoOut demoPost = Except.ok (demoOut, demoPost) :=
    gatherSensor_absent 2 "battery" demoOut demoPost
      (demoPost_readings_other "battery" (by decide))
  have g3 : gatherSensor 2 "fuel_level" demoOut demoPost = Except.ok (demoOut, demoPost) :=
    gatherSensor_absent 2 "fuel_level" demoOut demoPost
      (demoPost_readings_other "fuel_level" (by decide))
  have g4 : gatherSensor 2 "temperature" demoOut demoPost = Except.ok (demoOut, demoPost) :=
    gatherSensor_absent 2 "temperature" demoOut demoPost
      (demoPost_readings_other "temperature" (by decide))
  unfold get_all_readings
  simp only [g1, g2, g3, g4]

/-! ### Claim theorems -/

/-- C10: read_fuel_level clamps every result into the closed range [0, 100]
(including the unavailable case, which yields 0.0); read_rpm,
read_battery_voltage and read_temperature do not clamp — each returns
exactly the raw voltage times its conversion factor — and each of the three
returns 0.0 rather than an unavailability signal when the raw read yields
no value. -/
theorem fuel_clamped_others_not (c c₀ : Channels) (v : ℚ)
    (h₀ : c₀ "fuel_level" = none) (h₁ : c₀ "rpm" = none) (h₂ : c₀ "battery" = none)
    (h₃ : c₀ "temperature" = none) (hrpm : c "rpm" = some v) (hbat : c "battery" = some v)
    (htmp : c "temperature" = some v) :
    0 ≤ read_fuel_level c ∧ read_fuel_level c ≤ 100 ∧
    read_fuel_level c₀ = 0 ∧ read_rpm c₀ = 0 ∧ read_battery_voltage c₀ = 0 ∧
    read_temperature c₀ = 0 ∧ read_rpm c = v * RPM_FACTOR ∧
    read_battery_voltage c = v * BATTERY_VOLTAGE_DIVIDER ∧
    read_temperature c = v * TEMPERATURE_FACTOR := by
  refine ⟨?_, ?_, ?_, ?_, ?_, ?_, ?_, ?_, ?_⟩
  · unfold read_fuel_level read_raw
    cases c "fuel_level" with
    | none => norm_num
    | some raw => exact le_min (le_max_right _ _) (by norm_num)
  · unfold read_fuel_level read_raw
    cases c "fuel_level" with
    | none => norm_num
    | some raw => exact min_le_right _ _
  · unfold read_fuel_level read_raw
    rw [h₀]
  · unfold read_rpm read_raw
    rw [h₁]
  · unfold read_battery_voltage read_raw
    rw [h₂]
  · unfold read_temperature read_raw
    rw [h₃]
  · unfold read_rpm read_raw
    rw [hrpm]
  · unfold read_battery_voltage read_raw
    rw [hbat]
  · unfold read_temperature read_raw
    rw [htmp]

/-- Witness for C10 at the constant channel maps some 6 and none. -/
theorem fuel_clamped_others_not_witness :
    (fun _ => (none : Option ℚ)) "fuel_level" = none ∧
    (fun _ => some (6 : ℚ)) "rpm" = some (6 : ℚ) ∧
    read_rpm (fun _ => some (6 : ℚ)) = 6 * RPM_FACTOR :=
  ⟨rfl, rfl,
    (fuel_clamped_others_not (fun _ => some (6 : ℚ)) (fun _ => none) 6
      rfl rfl rfl rfl rfl rfl rfl).2.2.2.2.2.2.1⟩

/-- C4: get_reading computes the stale flag at query time as
(now - captured_at) > max_age, with strict greater-than, from the clock
value passed at each call and independently of the flag cached in the
store; hence a query at captured_at + e1 with e1 < max_age reports
stale = false, and a query at captured_at + max_age + e2 with e2 > 0 and no
intervening writes reports stale = true. -/
theorem stale_computed_at_query_time (s : MonState) (x : String) (r : SensorReading)
    (m now e₁ e₂ : ℚ) (hr : s.readings x = some r) (hm : MAX_AGE x = some m)
    (h1 : e₁ < m) (h2 : 0 < e₂) :
    (get_reading s now x).1 =
      Except.ok (some (setStale r (decide (now - r.timestamp > m)))) ∧
    (get_reading s (r.timestamp + e₁) x).1 = Except.ok (some (setStale r false)) ∧
    (get_reading s (r.timestamp + m + e₂) x).1 = Except.ok (some (setStale r true)) := by
  refine ⟨?_, ?_, ?_⟩
  · rw [get_reading_present s now x r m hr hm]
  · rw [get_reading_present s (r.timestamp + e₁) x r m hr hm]
    have hn : ¬ (m < e₁) := not_lt.mpr h1.le
    simp [hn]
  · rw [get_reading_present s (r.timestamp + m + e₂) x r m hr hm]
    have hp : r.timestamp + m + e₂ - r.timestamp > m := by linarith
    simp [hp]

/-- Witness for C4 on demoState's rpm reading. -/
theorem stale_computed_at_query_time_witness :
    demoState.readings "rpm" = some { value := 1500, timestamp := 1 / 2 } ∧
    MAX_AGE "rpm" = some (1 / 2) ∧ (1 / 4 : ℚ) < 1 / 2 ∧ (0 : ℚ) < 1 ∧
    (get_reading demoState (1 / 2 + 1 / 4) "rpm").1 =
      Except.ok (some (setStale { value := 1500, timestamp := 1 / 2 } false)) := by
  refine ⟨demo_rpm, rfl, by norm_num, by norm_num, ?_⟩
  have h := (stale_computed_at_query_time demoState "rpm"
    { value := 1500, timestamp := 1 / 2 } (1 / 2) 0 (1 / 4) 1 demo_rpm rfl
    (by norm_num) (by norm_num)).2.1
  simpa using h

/-- C5: a registered sensor that was never successfully polled (no stored
Reading) yields an explicit absence from get_reading — Except.ok none, not
a zero-valued Reading — and is omitted from the get_all_readings result
rather than defaulted to zero. -/
theorem never_polled_absent (s : MonState) (now : ℚ) (x : String)
    (out : List (String × SensorReading)) (t : MonState)
    (h : s.readings x = none) (hall : get_all_readings s now = Except.ok (out, t)) :
    (get_reading s now x).1 = Except.ok none ∧ x ∉ out.map Prod.fst := by
  constructor
  · rw [get_reading_absent s now x h]
  · obtain ⟨o₁, s₁, o₂, s₂, o₃, s₃, h1, h2, h3, h4⟩ :=
      get_all_readings_ok_inv s t now out hall
    obtain ⟨-, n1, m1⟩ := gatherSensor_ok_inv _ _ _ _ _ _ h1
    obtain ⟨-, n2, m2⟩ := gatherSensor_ok_inv _ _ _ _ _ _ h2
    obtain ⟨-, n3, m3⟩ := gatherSensor_ok_inv _ _ _ _ _ _ h3
    obtain ⟨-, n4, m4⟩ := gatherSensor_ok_inv _ _ _ _ _ _ h4
    have hx1 := n1 x h
    have hx2 := n2 x hx1
    have hx3 := n3 x hx2
    exact m4 x hx3 (m3 x hx2 (m2 x hx1 (m1 x h (by simp))))

/-- Witness for C5 on the freshly constructed service state. -/
theorem never_polled_absent_witness :
    initState.readings "rpm" = none ∧
    get_all_readings initState 0 = Except.ok ([], initState) ∧
    (get_reading initState 0 "rpm").1 = Except.ok none := by
  have hall : get_all_readings initState 0 = Except.ok ([], initState) := rfl
  exact ⟨rfl, hall, (never_polled_absent initState 0 "rpm" [] initState rfl hall).1⟩

/-- C8: a registered sensor is deemed due exactly when the elapsed time
since its last recorded poll attempt is greater than or equal to its
configured interval, and when due the attempt time is recorded at that
decision regardless of the read function and the channel state (so a
perpetually failing sensor is retried no faster than its interval); when
not due, neither the attempt table nor the store changes. -/
theorem due_iff_elapsed_ge_interval (last : LastRead) (now rate : ℚ) (sensor : String)
    (read : Channels → ℚ) (c : Channels) (s : MonState)
    (hr : REFRESH_RATES sensor = some rate) (hs : s.last_read = last) :
    should_update last now sensor =
      (if now - last sensor ≥ rate then some (true, setLast last sensor now)
       else some (false, last)) ∧
    (pollSensor read sensor c now s).last_read =
      (if now - last sensor ≥ rate then setLast last sensor now else last) ∧
    (pollSensor read sensor c now s).readings =
      (if now - last sensor ≥ rate
       then setReading s.readings sensor { value := read c, timestamp := now }
       else s.readings) := by
  subst hs
  refine ⟨should_update_some _ _ _ _ hr, ?_, ?_⟩ <;>
    by_cases hd : now - s.last_read sensor ≥ rate
  · rw [pollSensor_due read sensor c now rate s hr hd, if_pos hd]
  · rw [pollSensor_skip read sensor c now rate s hr hd, if_neg hd]
  · rw [pollSensor_due read sensor c now rate s hr hd, if_pos hd]
  · rw [pollSensor_skip read sensor c now rate s hr hd, if_neg hd]

/-- Witness for C8 with the rpm sensor on plainState at time 5. -/
theorem due_iff_elapsed_ge_interval_witness :
    REFRESH_RATES "rpm" = some (1 / 10) ∧ plainState.last_read = (fun _ => 0) ∧
    should_update (fun _ => 0) 5 "rpm" =
      (if (5 : ℚ) - (fun _ => (0 : ℚ)) "rpm" ≥ 1 / 10
       then some (true, setLast (fun _ => 0) "rpm" 5)
       else some (false, fun _ => 0)) :=
  ⟨rfl, rfl,
    (due_iff_elapsed_ge_interval (fun _ => 0) 5 (1 / 10) "rpm" read_rpm
      (fun _ => none) plainState rfl rfl).1⟩

/-- C2 counterexample: on the reachable state demoState (whose registry is
the fixed four-sensor table), get_reading with the unregistered identifier
"unknown" returns Except.ok none — the same absence result as a registered,
never-polled sensor — and raises no error, contradicting the claim that an
unregistered identifier is rejected with an explicit failure. -/
theorem unknown_sensor_no_rejection_cex :
    (get_reading demoState 0 "unknown").1 = Except.ok none ∧
    isErr (get_reading demoState 0 "unknown").1 = false ∧
    Reachable demoState := by
  rw [get_reading_absent demoState 0 "unknown" (demo_other "unknown" (by decide))]
  exact ⟨rfl, rfl, demoState_reachable⟩

/-- C2 (amended): for every reachable service state, get_reading with an
identifier outside the Refresh Policy table returns None (absence) without
raising any error — the unregistered case is silently indistinguishable
from a registered sensor with no data, not an explicit rejection (the HTTP
layer performs its own 404 check separately). -/
theorem unknown_sensor_returns_absence (s : MonState) (now : ℚ) (x : String)
    (h : Reachable s) (hx : REFRESH_RATES x = none) :
    (get_reading s now x).1 = Except.ok none ∧
    isErr (get_reading s now x).1 = false := by
  have hmem : x ∉ SENSORS := by
    intro hm
    have hsome := (registered_iff x).mpr hm
    rw [hx] at hsome
    simp at hsome
  rw [get_reading_absent s now x (reachable_not_sensor_none s h x hmem)]
  exact ⟨rfl, rfl⟩

/-- Witness for the amended C2 on demoState. -/
theorem unknown_sensor_returns_absence_witness :
    Reachable demoState ∧ REFRESH_RATES "unknown" = none ∧
    (get_reading demoState 3 "unknown").1 = Except.ok none :=
  ⟨demoState_reachable, rfl,
    (unknown_sensor_returns_absence demoState 3 "unknown" demoState_reachable rfl).1⟩

/-- C9: in every reachable state, every stored reading belongs to a
registered sensor (the key sets of REFRESH_RATES and MAX_AGE coincide), so
the MAX_AGE lookup behind a present reading succeeds and get_reading
returns Except.ok rather than raising, while an unregistered identifier
always maps to an absent reading and get_reading on it returns
Except.ok none without an exception. -/
theorem readings_keys_registered (s : MonState) (x u : String) (now : ℚ)
    (r : SensorReading) (h : Reachable s) (hx : s.readings x = some r)
    (hu : REFRESH_RATES u = none) :
    x ∈ SENSORS ∧ (REFRESH_RATES x).isSome = true ∧ (MAX_AGE x).isSome = true ∧
    (∃ ro, (get_reading s now x).1 = Except.ok ro) ∧
    s.readings u = none ∧ (get_reading s now u).1 = Except.ok none := by
  have hmem : x ∈ SENSORS := reachable_registered s h x r hx
  have hrr : (REFRESH_RATES x).isSome = true := (registered_iff x).mpr hmem
  have hma : (MAX_AGE x).isSome = true := by
    rw [MAX_AGE_keys]
    exact hrr
  obtain ⟨m, hm⟩ := MAX_AGE_of_sensor x hmem
  have humem : u ∉ SENSORS := by
    intro hm2
    have hsome := (registered_iff u).mpr hm2
    rw [hu] at hsome
    simp at hsome
  have hun : s.readings u = none := reachable_not_sensor_none s h u humem
  refine ⟨hmem, hrr, hma,
    ⟨some (setStale r (decide (now - r.timestamp > m))), ?_⟩, hun, ?_⟩
  · rw [get_reading_present s now x r m hx hm]
  · rw [get_reading_absent s now u hun]

/-- Witness for C9 on demoState with its stored rpm reading. -/
theorem readings_keys_registered_witness :
    Reachable demoState ∧
    demoState.readings "rpm" = some { value := 1500, timestamp := 1 / 2 } ∧
    REFRESH_RATES "unknown" = none ∧ demoState.readings "unknown" = none :=
  ⟨demoState_reachable, demo_rpm, rfl,
    (readings_keys_registered demoState "rpm" "unknown" 0
      { value := 1500, timestamp := 1 / 2 } demoState_reachable demo_rpm rfl).2.2.2.2.1⟩

/-- C3 counterexample: get_reading mutates the stored Reading object — on
the reachable state demoState the stored rpm reading has stale = false, and
after a get_reading call at time 2 the reading stored for rpm has
stale = true, so the stored Reading is not immutable and the caller
received a view of the mutated stored object, not an independent copy. -/
theorem get_reading_mutates_store_cex :
    demoState.readings "rpm" =
      some { value := 1500, timestamp := 1 / 2, stale := false } ∧
    (get_reading demoState 2 "rpm").2.readings "rpm" =
      some { value := 1500, timestamp := 1 / 2, stale := true } ∧
    Reachable demoState := by
  refine ⟨demo_rpm, ?_, demoState_reachable⟩
  rw [get_reading_present demoState 2 "rpm"
    { value := 1500, timestamp := 1 / 2 } (1 / 2) demo_rpm rfl]
  show setReading demoState.readings "rpm" _ "rpm" = _
  rw [setReading_self]
  norm_num [setStale]

/-- C3 (amended): the query operations mutate only the stale flag of stored
Readings, writing it in place at query time; after get_reading or
get_all_readings every stored reading keeps the value and timestamp it had
before the call, and only the stale field may differ. -/
theorem queries_mutate_only_stale (s : MonState) (now : ℚ) (x : String)
    (out : List (String × SensorReading)) (t : MonState)
    (hall : get_all_readings s now = Except.ok (out, t)) :
    PreservesVT s (get_reading s now x).2 ∧ PreservesVT s t :=
  ⟨get_reading_preservesVT s now x,
   (get_all_readings_preservesVT s t now out hall).1⟩

/-- Witness for the amended C3 on demoState at time 2. -/
theorem queries_mutate_only_stale_witness :
    get_all_readings demoState 2 = Except.ok (demoOut, demoPost) ∧
    demoPost.readings "rpm" =
      some { value := 1500, timestamp := 1 / 2, stale := true } ∧
    (∃ r₀, demoState.readings "rpm" = some r₀ ∧
      ({ value := 1500, timestamp := 1 / 2, stale := true } : SensorReading).value = r₀.value ∧
      ({ value := 1500, timestamp := 1 / 2, stale := true } : SensorReading).timestamp =
        r₀.timestamp) :=
  ⟨demo_all, demoPost_readings_rpm,
    (queries_mutate_only_stale demoState 2 "rpm" demoOut demoPost demo_all).2
      "rpm" { value := 1500, timestamp := 1 / 2, stale := true } demoPost_readings_rpm⟩

/-- C1 counterexample: demoState is reachable and stores the last good rpm
value 1500; one polling-loop iteration at time 1 with every channel
unavailable does not skip the write — it stores a zero-valued Reading for
rpm, discarding the last known good value. -/
theorem unavailable_write_not_skipped_cex :
    demoState.readings "rpm" = some { value := 1500, timestamp := 1 / 2 } ∧
    (pollTick (fun _ => none) 1 demoState).readings "rpm" =
      some { value := 0, timestamp := 1 } ∧
    Reachable demoState := by
  refine ⟨demo_rpm, ?_, demoState_reachable⟩
  unfold pollTick
  rw [pollSensor_readings_ne read_temperature "temperature" "rpm" _ _ _ (by decide),
      pollSensor_readings_ne read_fuel_level "fuel_level" "rpm" _ _ _ (by decide),
      pollSensor_readings_ne read_battery_voltage "battery" "rpm" _ _ _ (by decide)]
  have hdue : (1 : ℚ) - demoState.last_read "rpm" ≥ 1 / 10 := by
    rw [demoState_eq]
    show (1 : ℚ) - setLast (fun _ => 0) "rpm" (1 / 2) "rpm" ≥ 1 / 10
    rw [setLast_self]
    norm_num
  rw [pollSensor_writes read_rpm "rpm" (fun _ => none) 1 (1 / 10) demoState rfl hdue]
  norm_num [read_rpm, read_raw]

/-- C1 (amended): when the Sensor Source is unavailable the Poll Scheduler
does not skip the write — for every registered sensor that is due on a tick
while its own channel reads unavailable (the other sensors and channels are
arbitrary: they may or may not be due or available), the converted read
returns 0.0 and the loop stores a zero-valued Reading timestamped at the
poll, replacing whatever Reading was there before. -/
theorem unavailable_source_writes_zero (s : MonState) (now rate : ℚ)
    (c : Channels) (x : String) (hx : x ∈ SENSORS)
    (hr : REFRESH_RATES x = some rate) (hc : c x = none)
    (hdue : now - s.last_read x ≥ rate) :
    (pollTick c now s).readings x = some { value := 0, timestamp := now } := by
  simp only [SENSORS, List.mem_cons, List.not_mem_nil, or_false] at hx
  unfold pollTick
  rcases hx with rfl | rfl | rfl | rfl
  · have hr' : some ((1 : ℚ) / 10) = some rate := hr
    injection hr' with hrate
    subst hrate
    have e : read_rpm c = 0 := by
      unfold read_rpm read_raw
      rw [hc]
    rw [pollSensor_readings_ne read_temperature "temperature" "rpm" _ _ _ (by decide),
        pollSensor_readings_ne read_fuel_level "fuel_level" "rpm" _ _ _ (by decide),
        pollSensor_readings_ne read_battery_voltage "battery" "rpm" _ _ _ (by decide),
        pollSensor_writes read_rpm "rpm" c now (1 / 10) s rfl hdue, e]
  · have hr' : some (1 : ℚ) = some rate := hr
    injection hr' with hrate
    subst hrate
    have e : read_battery_voltage c = 0 := by
      unfold read_battery_voltage read_raw
      rw [hc]
    have l2 : (pollSensor read_rpm "rpm" c now s).last_read "battery" =
        s.last_read "battery" :=
      pollSensor_last_ne read_rpm "rpm" "battery" c now s (by decide)
    rw [pollSensor_readings_ne read_temperature "temperature" "battery" _ _ _ (by decide),
        pollSensor_readings_ne read_fuel_level "fuel_level" "battery" _ _ _ (by decide),
        pollSensor_writes read_battery_voltage "battery" c now 1 _ rfl
          (by rw [l2]; exact hdue), e]
  · have hr' : some (2 : ℚ) = some rate := hr
    injection hr' with hrate
    subst hrate
    have e : read_fuel_level c = 0 := by
      unfold read_fuel_level read_raw
      rw [hc]
    have l3 : (pollSensor read_battery_voltage "battery" c now
          (pollSensor read_rpm "rpm" c now s)).last_read "fuel_level" =
        s.last_read "fuel_level" := by
      rw [pollSensor_last_ne read_battery_voltage "battery" "fuel_level" c now _ (by decide),
        pollSensor_last_ne read_rpm "rpm" "fuel_level" c now s (by decide)]
    rw [pollSensor_readings_ne read_temperature "temperature" "fuel_level" _ _ _ (by decide),
        pollSensor_writes read_fuel_level "fuel_level" c now 2 _ rfl
          (by rw [l3]; exact hdue), e]
  · have hr' : some (2 : ℚ) = some rate := hr
    injection hr' with hrate
    subst hrate
    have e : read_temperature c = 0 := by
      unfold read_temperature read_raw
      rw [hc]
    have l4 : (pollSensor read_fuel_level "fuel_level" c now
          (pollSensor read_battery_voltage "battery" c now
            (pollSensor read_rpm "rpm" c now s))).last_read "temperature" =
        s.last_read "temperature" := by
      rw [pollSensor_last_ne read_fuel_level "fuel_level" "temperature" c now _ (by decide),
        pollSensor_last_ne read_battery_voltage "battery" "temperature" c now _ (by decide),
        pollSensor_last_ne read_rpm "rpm" "temperature" c now s (by decide)]
    rw [pollSensor_writes read_temperature "temperature" c now 2 _ rfl
          (by rw [l4]; exact hdue), e]

/-- Witness for the amended C1: on demoState at time 1 only rpm (and
battery) are due, the rpm channel alone is hypothesized unavailable, and
the stored rpm = 1500 is replaced by a zero-valued Reading. -/
theorem unavailable_source_writes_zero_witness :
    "rpm" ∈ SENSORS ∧ REFRESH_RATES "rpm" = some (1 / 10) ∧
    (fun _ => (none : Option ℚ)) "rpm" = none ∧
    (1 : ℚ) - demoState.last_read "rpm" ≥ 1 / 10 ∧
    (pollTick (fun _ => none) 1 demoState).readings "rpm" =
      some { value := 0, timestamp := 1 } := by
  have hdue : (1 : ℚ) - demoState.last_read "rpm" ≥ 1 / 10 := by
    rw [demoState_eq]
    show (1 : ℚ) - setLast (fun _ => 0) "rpm" (1 / 2) "rpm" ≥ 1 / 10
    rw [setLast_self]
    norm_num
  exact ⟨by decide, rfl, rfl, hdue,
    unavailable_source_writes_zero demoState 1 (1 / 10) (fun _ => none) "rpm"
      (by decide) rfl rfl hdue⟩

/-- C6: the stop call clears the running flag and joins the polling thread;
in every state in which stop has returned, the loop has fully exited, the
flag is down, and no amount of further scheduler activity can change the
state — in particular no Reading Store write ever lands after stop
returns. -/
theorem stop_join_no_further_writes (s t u : MonState)
    (hstop : StopReturns s t) (hsteps : SchedSteps t u) :
    t.pc = ThreadPC.exited ∧ t.running = false ∧ u = t ∧
    u.readings = t.readings := by
  obtain ⟨hrun, hpc⟩ := hstop
  have hru : t.running = false := by rw [schedSteps_running _ _ hrun]
  have hu : u = t := schedSteps_exited t u hsteps hpc
  exact ⟨hpc, hru, hu, by rw [hu]⟩

/-- Witness for C6: stopping the freshly started service joins back to the
initial state, after which no scheduler step applies. -/
theorem stop_join_no_further_writes_witness :
    StopReturns (start initState) initState ∧ SchedSteps initState initState ∧
    initState.pc = ThreadPC.exited := by
  have hstop : StopReturns (start initState) initState :=
    ⟨Relation.ReflTransGen.single
      (SchedStep.checkExit { start initState with running := false } rfl rfl),
     rfl⟩
  exact ⟨hstop, Relation.ReflTransGen.refl,
    (stop_join_no_further_writes (start initState) initState initState hstop
      Relation.ReflTransGen.refl).1⟩

/-- C7: start is idempotent — calling it twice from any state launches the
loop once (start of start equals start), and calling it while already
running is the identity — and stop while stopped is a no-op: any state in
which a stop call has returned is one from which a second stop call returns
immediately with the state unchanged. -/
theorem start_stop_idempotent (s t u : MonState)
    (hrun : t.running = true) (hstop : StopReturns s u) :
    start (start s) = start s ∧ start t = t ∧ StopReturns u u := by
  refine ⟨?_, ?_, ?_⟩
  · by_cases h : s.running <;> simp [start, h]
  · simp [start, hrun]
  · obtain ⟨hrun', hpc⟩ := hstop
    have hu : u.running = false := by rw [schedSteps_running _ _ hrun']
    constructor
    · rw [running_false_update u hu]
      exact Relation.ReflTransGen.refl
    · exact hpc

/-- Witness for C7 on the initial state. -/
theorem start_stop_idempotent_witness :
    (start initState).running = true ∧ StopReturns initState initState ∧
    start (start initState) = start initState := by
  have hstop : StopReturns initState initState := ⟨Relation.ReflTransGen.refl, rfl⟩
  exact ⟨rfl, hstop,
    (start_stop_idempotent initState (start initState) initState rfl hstop).1⟩

end BoatPi
